import Mathlib

/-!
# Verification of the email-account ingestion and threading engine

A shallow embedding of `frappe/email/doctype/email_account/email_account.py`:
the thread-resolution algorithm (`set_thread`), the batch receive loop
(`receive`), the auto-reply policy (`send_auto_reply`), the unreplied-thread
notifier's candidate selection (`notify_unreplied`), the default-flag
uniqueness enforcement (`there_must_be_only_one_default`), and the
notification-recipient accessor (`get_unreplied_notification_emails`).

Python strings are Lean `String`s, with `""` standing for both the empty
string and an absent (`None`) value, matching Python truthiness at every
`if value:` test in the source.  Timestamps are `Int` epoch seconds.  The
generic document store (an external collaborator of this file) is modelled
as explicit lists of records.
-/

/-- Python `s.strip(" <>")`: drop leading and trailing characters belonging
to the set `{' ', '<', '>'}`. -/
def pyStrip (s : String) : String :=
  let isCut : Char → Bool := fun c => c = ' ' || c = '<' || c = '>'
  String.mk (((s.toList.dropWhile isCut).reverse.dropWhile isCut).reverse)

/-- Python `s.split("@", 1)[0]`: the portion of `s` before the first `'@'`
(the whole string when no `'@'` occurs). -/
def beforeAt (s : String) : String :=
  String.mk (s.toList.takeWhile (fun c => c ≠ '@'))

/-- Python `c in s` for a single character `c`. -/
def pyContains (s : String) (c : Char) : Bool :=
  s.toList.contains c

/-- Python `s.replace(old, new)` for single-character `old` and `new`:
replace every occurrence. -/
def pyReplaceChar (s : String) (old new : Char) : String :=
  String.mk (s.toList.map (fun c => if c = old then new else c))

/-- Python `s.split(sep)` for a single-character separator: split at every
occurrence, keeping empty pieces (`"a,,b".split(",") == ["a", "", "b"]`). -/
def splitCharAux (sep : Char) : List Char → List (List Char)
  | [] => [[]]
  | c :: rest =>
    match splitCharAux sep rest with
    | [] => if c = sep then [[], []] else [[c]]
    | g :: gs => if c = sep then [] :: g :: gs else (c :: g) :: gs

/-- Python `s.split(sep)` for a single-character separator. -/
def pySplitChar (s : String) (sep : Char) : List String :=
  (splitCharAux sep s.toList).map String.mk

/-- Python `s.strip()`: drop leading and trailing whitespace. -/
def pyStripWs (s : String) : String :=
  String.mk (((s.toList.dropWhile Char.isWhitespace).reverse.dropWhile
    Char.isWhitespace).reverse)

/-- Decoder output (`Email(raw)`): the fields of the normalized message that
the threading logic reads.  `in_reply_to` is `email.mail.get("In-Reply-To")`
with `""` for an absent header (the source applies `or ""`). -/
structure Email where
  subject : String
  content : String
  from_email : String
  from_real_name : String
  mail_to : String
  in_reply_to : String
  deriving DecidableEq, Repr

/-- A Communication record (one Conversation Entry). Optional reference
fields use `""` for unset, matching Python truthiness of `parent.reference_name`. -/
structure Communication where
  name : String
  subject : String
  content : String
  sent_or_received : String
  sender : String
  reference_doctype : String
  reference_name : String
  is_first : Bool
  unread_notification_sent : Bool
  creation : Int
  deriving DecidableEq, Repr

/-- A parent-case record (polymorphic by `doctype`).  `email_id` is the
email-identifying field of the target type, `""` when the field is absent
or unset. -/
structure ParentDoc where
  doctype : String
  name : String
  subject : String
  sender : String
  email_id : String
  status : String
  deriving DecidableEq, Repr

/-- Capability description of the configured `append_to` doctype, standing
for `parent.meta.get_field(...)` / `frappe.get_meta(...)` introspection.
`unique_email_id` — modelled from the spec: the target type may enforce a
unique constraint on its email-identifying field, which is what makes
`parent.insert()` raise `DuplicateEntryError` (spec §4.3 step 4). -/
structure DocMeta where
  has_subject_field : Bool
  has_sender_field : Bool
  has_email_id_field : Bool
  unique_email_id : Bool
  deriving DecidableEq, Repr

/-- One email account's configuration fields read by this module.
`append_to = ""` and `auto_reply_message = ""` stand for unset values;
`unreplied_for_mins = 0` stands for an unset window (Python falsy). -/
structure Account where
  name : String
  email_id : String
  enable_incoming : Bool
  enable_outgoing : Bool
  append_to : String
  enable_auto_reply : Bool
  auto_reply_message : String
  notify_if_unreplied : Bool
  send_notification_to : String
  unreplied_for_mins : Nat
  default_incoming : Bool
  default_outgoing : Bool
  deriving DecidableEq, Repr

/-- Modelled from the spec: the generic document store (§6), holding the
Communication table and the polymorphic parent-case records. -/
structure Store where
  comms : List Communication
  parents : List ParentDoc
  deriving DecidableEq, Repr

/-- Lookup `frappe.db.exists("Communication", n)` / `frappe.get_doc("Communication", n)`.  Modelled from the spec: store `get(type, id)`. -/
def Store.getComm (st : Store) (n : String) : Option Communication :=
  st.comms.find? (fun c => c.name == n)

/-- Lookup `frappe.db.exists(dt, n)` for an arbitrary doctype: Communications live in
their own table, every other doctype in the parent-case table.  Modelled from
the spec: store `exists(type, id)`. -/
def Store.docExists (st : Store) (dt n : String) : Bool :=
  if dt == "Communication" then st.comms.any (fun c => c.name == n)
  else st.parents.any (fun p => p.doctype == dt && p.name == n)

/-- Fetch `frappe.get_doc(append_to, {"email_id": v})`: a record of doctype
`dt` by the value of its email-identifying field.  Modelled from the spec:
store `getByField(type, field, value)`. -/
def Store.getParentByEmail (st : Store) (dt v : String) : Option ParentDoc :=
  st.parents.find? (fun p => p.doctype == dt && p.email_id == v)

/-- Errors `set_thread` can raise for one message. -/
inductive ThreadErr where
  | duplicateEntry
  | docNotFound
  deriving DecidableEq, Repr

/-- Result of `set_thread`: the updated communication (reference fields and
`is_first`) and the updated store (a parent case may have been inserted). -/
structure ThreadOut where
  comm : Communication
  store : Store
  deriving DecidableEq, Repr

/-- Lines 158–171 of `set_thread`: strip the `In-Reply-To` value; if non-empty
and containing `"@"`, look up the portion before `"@"` as a Communication
name; if found and that Communication has a `reference_name`, re-resolve to
its referenced document (`frappe.get_doc` raising when it does not exist);
otherwise the found Communication itself is the parent.  Returns the
`(doctype, name)` handle of the resolved parent, or `none`. -/
def resolveExisting (st : Store) (email : Email) : Except ThreadErr (Option (String × String)) :=
  let irt := pyStrip email.in_reply_to
  if irt = "" then .ok none
  else if pyContains irt '@' then
    match st.getComm (beforeAt irt) with
    | none => .ok none
    | some e1 =>
      if e1.reference_name = "" then .ok (some ("Communication", e1.name))
      else if st.docExists e1.reference_doctype e1.reference_name then
        .ok (some (e1.reference_doctype, e1.reference_name))
      else .error .docNotFound
  else .ok none

/-- Lines 176–188: `frappe.new_doc(self.append_to)` populated field-by-field
as far as the target type's capabilities allow (`subject`, `sender`).
Modelled from the spec (§4.3 step 4): when the target type has an
email-identifying field, the system-created case records the sender's address
there — that field is what the duplicate-key fallback later fetches by. -/
def newParentDoc (acct : Account) (meta : DocMeta) (fresh : String) (email : Email) : ParentDoc :=
  { doctype := acct.append_to
    name := fresh
    subject := if meta.has_subject_field then email.subject else ""
    sender := if meta.has_sender_field then email.from_email else ""
    email_id := if meta.has_email_id_field then email.from_email else ""
    status := "" }

/-- Modelled from the spec (§4.3 step 4, §7 PersistenceConflict):
`parent.insert()` raises `DuplicateEntryError` exactly when the target type
enforces uniqueness of its email-identifying field and a record of that type
already holds the sender's address. -/
def insertConflicts (st : Store) (acct : Account) (meta : DocMeta) (email : Email) : Bool :=
  meta.unique_email_id && st.parents.any
    (fun p => p.doctype == acct.append_to && p.email_id == email.from_email)

/-- Method `EmailAccount.set_thread` (lines 151–208).  Resolve an existing parent
from the `In-Reply-To` header; failing that, when `append_to` is configured,
insert a new parent case (falling back to a fetch by the email-identifying
field on a duplicate-key conflict, or re-raising when the target type has no
such field) and mark the communication `is_first`; finally copy the resolved
parent's `(doctype, name)` into the communication's reference fields. -/
def set_thread (st : Store) (acct : Account) (meta : DocMeta) (fresh : String)
    (comm : Communication) (email : Email) : Except ThreadErr ThreadOut :=
  match resolveExisting st email with
  | .error e => .error e
  | .ok (some (dt, n)) =>
    .ok ⟨{ comm with reference_doctype := dt, reference_name := n }, st⟩
  | .ok none =>
    if acct.append_to = "" then .ok ⟨comm, st⟩
    else if insertConflicts st acct meta email then
      if meta.has_email_id_field then
        match st.getParentByEmail acct.append_to email.from_email with
        | some p =>
          .ok ⟨{ comm with
                 is_first := true
                 reference_doctype := p.doctype
                 reference_name := p.name }, st⟩
        | none => .error .docNotFound
      else .error .duplicateEntry
    else
      let nd := newParentDoc acct meta fresh email
      .ok ⟨{ comm with
             is_first := true
             reference_doctype := nd.doctype
             reference_name := nd.name },
           { st with parents := st.parents ++ [nd] }⟩

/-- The argument record of one `frappe.sendmail(...)` call made by
`send_auto_reply`. -/
structure OutMail where
  recipients : List String
  sender : String
  reply_to : String
  subject : String
  content : String
  reference_doctype : String
  reference_name : String
  message_id : String
  unsubscribe_message : String
  bulk : Bool
  deriving DecidableEq, Repr

/-- Method `EmailAccount.send_auto_reply` (lines 210–225): guarded by the truthiness
of `self.auto_reply_message`; when it fires, one `frappe.sendmail` call is
issued.  `incoming_email_account` stands for the value that
`communication.set_incoming_outgoing_accounts()` (an external collaborator)
assigns, and `default_template` for the rendered
`templates/emails/auto_reply.html`.  The `content` expression mirrors the
source's `self.auto_reply_message or <rendered template>`. -/
def send_auto_reply (acct : Account) (comm : Communication) (email : Email)
    (incoming_email_account : String) (default_template : String) : Option OutMail :=
  if acct.auto_reply_message = "" then none
  else
    some { recipients := [email.from_email]
           sender := acct.email_id
           reply_to := incoming_email_account
           subject := "Re: " ++ comm.subject
           content := if acct.auto_reply_message ≠ "" then acct.auto_reply_message
                      else default_template
           reference_doctype := comm.reference_doctype
           reference_name := comm.reference_name
           message_id := comm.name
           unsubscribe_message := "Leave this conversation"
           bulk := true }

/-- Method `EmailAccount.get_unreplied_notification_emails` (lines 227–231): first
overwrites `self.send_notification_to`, replacing every comma with a newline,
then splits the overwritten value on newlines and strips each piece.  Returns
the updated account together with the list. -/
def get_unreplied_notification_emails (acct : Account) : Account × List String :=
  let s := pyReplaceChar acct.send_notification_to ',' '\n'
  ({ acct with send_notification_to := s },
   (pySplitChar s '\n').map (fun e => pyStripWs e))

/-- Errors `receive` can raise for a whole batch. -/
inductive ReceiveErr where
  | aggregate (tracebacks : List String)
  | unboundLocal (var : String)
  deriving DecidableEq, Repr

/-- The `for raw in incoming_mails` loop of `receive` (lines 106–116),
abstracted over the per-message processing step `p` (`insert_communication`
together with its persistence effects).  Modelled from the spec (§4.4 h,
§5): `frappe.db.commit()` after a successful message keeps its new state;
`frappe.db.rollback()` after a failed message discards that message's
effects, so the next message is processed from the pre-failure state.
Returns the final committed state and the recorded tracebacks in encounter
order. -/
def receiveLoop {σ α : Type} (p : σ → α → Except String σ) : σ → List α → σ × List String
  | st, [] => (st, [])
  | st, m :: rest =>
    match p st m with
    | .ok st2 => receiveLoop p st2 rest
    | .error e =>
      let r := receiveLoop p st rest
      (r.1, e :: r.2)

/-- Method `EmailAccount.receive` (lines 97–119).  When incoming is enabled, run the
per-message loop and finally raise an aggregate error iff any traceback was
recorded.  When incoming is disabled, the trailing `if exceptions:` (line 118)
still executes but sits outside the `if self.enable_incoming:` block, and
`exceptions` — a function-local name assigned only inside that block — was
never bound, so Python raises `UnboundLocalError` instead of returning. -/
def receive {σ α : Type} (acct : Account) (p : σ → α → Except String σ)
    (st : σ) (incoming_mails : List α) : Except ReceiveErr σ :=
  if acct.enable_incoming then
    let r := receiveLoop p st incoming_mails
    if r.2.isEmpty then .ok r.1 else .error (.aggregate r.2)
  else .error (.unboundLocal "exceptions")

/-- One value of the `filters` dict passed to `frappe.get_all("Communication", ...)`
inside `notify_unreplied`: either an equality filter or a `("<", t)` / `(">", t)`
comparison on the creation timestamp. -/
inductive FilterVal where
  | eqStr (s : String)
  | eqBool (b : Bool)
  | ltTime (t : Int)
  | gtTime (t : Int)
  deriving DecidableEq, Repr

/-- Insert one key/value pair into a Python dict under construction: a
repeated key overwrites the earlier value in place. -/
def pyDictInsert (d : List (String × FilterVal)) (k : String) (v : FilterVal) :
    List (String × FilterVal) :=
  if d.any (fun kv => kv.1 == k) then
    d.map (fun kv => if kv.1 == k then (k, v) else kv)
  else d ++ [(k, v)]

/-- Evaluate a Python dict literal: entries are inserted left to right, so a
key written twice keeps only its last value. -/
def pyDict (entries : List (String × FilterVal)) : List (String × FilterVal) :=
  entries.foldl (fun d kv => pyDictInsert d kv.1 kv.2) []

/-- Whether one Communication record satisfies one filter entry, per the
document store's query-by-filter semantics (`0` compares against the unset
boolean, `("<", t)` / `(">", t)` compare the creation timestamp strictly). -/
def matchesFilter (c : Communication) (k : String) (v : FilterVal) : Bool :=
  match k, v with
  | "sent_or_received", .eqStr s => c.sent_or_received == s
  | "reference_doctype", .eqStr s => c.reference_doctype == s
  | "unread_notification_sent", .eqBool b => c.unread_notification_sent == b
  | "creation", .ltTime t => c.creation < t
  | "creation", .gtTime t => t < c.creation
  | _, _ => false

/-- The `filters` dict literal of `notify_unreplied` (lines 261–267), written
exactly in source order: the key `"creation"` appears twice, once with the
`("<", now - T)` bound and once with the `(">", now - 3*T)` bound, and dict
evaluation keeps only the last.  `T` is `email_account.unreplied_for_mins or 30`
minutes, converted to seconds. -/
def notifyFilters (acct : Account) (now : Int) : List (String × FilterVal) :=
  let t : Int := if acct.unreplied_for_mins = 0 then 30 else (acct.unreplied_for_mins : Int)
  pyDict [("sent_or_received", .eqStr "Received"),
          ("reference_doctype", .eqStr acct.append_to),
          ("unread_notification_sent", .eqBool false),
          ("creation", .ltTime (now - t * 60)),
          ("creation", .gtTime (now - t * 60 * 3))]

/-- The candidate selection of `notify_unreplied` (lines 256–267) for one
account: accounts are swept only when `enable_incoming` and
`notify_if_unreplied` are set (the account-level `get_all` filters) and
`append_to` is configured; the selected Communications are those matching
every entry of the evaluated filters dict. -/
def notifyCandidates (acct : Account) (now : Int) (comms : List Communication) :
    List Communication :=
  if acct.enable_incoming && acct.notify_if_unreplied && !(acct.append_to == "") then
    comms.filter (fun c => (notifyFilters acct now).all (fun kv => matchesFilter c kv.1 kv.2))
  else []

/-- The two default flags iterated by `there_must_be_only_one_default`
(line 52: `for fn in ("default_incoming", "default_outgoing")`). -/
inductive DefaultFlag where
  | incoming
  | outgoing
  deriving DecidableEq, Repr

/-- Read `self.get(fn)` of a default flag. -/
def Account.getDefault (a : Account) : DefaultFlag → Bool
  | .incoming => a.default_incoming
  | .outgoing => a.default_outgoing

/-- Write `email_account.set(fn, v)` of a default flag. -/
def Account.setDefault (a : Account) : DefaultFlag → Bool → Account
  | .incoming, v => { a with default_incoming := v }
  | .outgoing, v => { a with default_outgoing := v }

/-- Modelled from the spec: the document store's `update`/`create` of one
Account record (§6) — replace the record with that name, or append it when
absent. -/
def writeDoc (tbl : List Account) (a : Account) : List Account :=
  if tbl.any (fun b => b.name == a.name) then
    tbl.map (fun b => if b.name = a.name then a else b)
  else tbl ++ [a]

/-- Query `frappe.get_all("Email Account", filters={fn: 1})` (lines 54–55): the
names of the accounts currently holding the flag. -/
def flaggedNames (fn : DefaultFlag) (tbl : List Account) : List String :=
  (tbl.filter (fun b => b.getDefault fn)).map (fun b => b.name)

/-- The inner loop of `there_must_be_only_one_default` (lines 54–61) for one
flag: walk the snapshot of flagged names, skip the account being saved, fetch
each other account fresh from the table (`frappe.get_doc`, `none` when the
record is gone), clear its flag and save it through `sv` — each such save
re-enters the whole save pipeline, hooks included. -/
def clearLoop (sv : List Account → Account → Option (List Account))
    (selfName : String) (fn : DefaultFlag) :
    List String → List Account → Option (List Account)
  | [], tbl => some tbl
  | n :: rest, tbl =>
    if n = selfName then clearLoop sv selfName fn rest tbl
    else
      match tbl.find? (fun b => b.name == n) with
      | none => none
      | some b =>
        match sv tbl (b.setDefault fn false) with
        | none => none
        | some tbl2 => clearLoop sv selfName fn rest tbl2

/-- One `Document.save()` of an Email Account: write the record, then run the
`on_update` hook `there_must_be_only_one_default` (lines 46–61), which for
each of the two default flags held by the saved account clears that flag on
every other account and saves each of them in turn.  Modelled from the spec
(§3: the invariant is "enforced on every update"), the nested saves re-run
the hook; `fuel` bounds the re-entrance depth and `none` means the bound was
exhausted mid-run (or a fetched record was missing). -/
def saveFuel : Nat → List Account → Account → Option (List Account)
  | 0, _, _ => none
  | fuel + 1, tbl, a =>
    let tbl0 := writeDoc tbl a
    let r1 := if a.getDefault .incoming then
        clearLoop (saveFuel fuel) a.name .incoming (flaggedNames .incoming tbl0) tbl0
      else some tbl0
    match r1 with
    | none => none
    | some t1 =>
      if a.getDefault .outgoing then
        clearLoop (saveFuel fuel) a.name .outgoing (flaggedNames .outgoing t1) t1
      else some t1

/-- The per-flag uniqueness invariant of spec §3: at most one Account holds
the flag (all flagged accounts share one name). -/
def atMostOneDefault (fn : DefaultFlag) (tbl : List Account) : Prop :=
  ∀ m ∈ flaggedNames fn tbl, ∀ m' ∈ flaggedNames fn tbl, m = m'

instance (fn : DefaultFlag) (tbl : List Account) : Decidable (atMostOneDefault fn tbl) := by
  unfold atMostOneDefault
  infer_instance

/-! ## Concrete records used by witnesses and counterexamples -/

/-- A support account with incoming enabled and `append_to = "Issue"`. -/
def w1Acct : Account :=
  { name := "Support", email_id := "inbox@x.com", enable_incoming := true
    enable_outgoing := false, append_to := "Issue", enable_auto_reply := false
    auto_reply_message := "", notify_if_unreplied := false, send_notification_to := ""
    unreplied_for_mins := 0, default_incoming := false, default_outgoing := false }

/-- Capabilities of an `Issue`-like doctype with subject, sender and a unique
email-identifying field. -/
def w1Meta : DocMeta :=
  { has_subject_field := true, has_sender_field := true
    has_email_id_field := true, unique_email_id := false }

/-- An existing parent case. -/
def w1Case : ParentDoc :=
  { doctype := "Issue", name := "ISS-7", subject := "printer broken"
    sender := "a@x.com", email_id := "a@x.com", status := "Open" }

/-- An existing Conversation Entry E1 linked to the parent case `ISS-7`. -/
def w1E1 : Communication :=
  { name := "COMM-1", subject := "printer broken", content := "it is broken"
    sent_or_received := "Received", sender := "a@x.com"
    reference_doctype := "Issue", reference_name := "ISS-7", is_first := true
    unread_notification_sent := false, creation := 0 }

/-- Store holding E1 and its parent case. -/
def w1St : Store := { comms := [w1E1], parents := [w1Case] }

/-- A reply whose `In-Reply-To` names E1 (`COMM-1`) with an `@`-suffixed
system token. -/
def w1Email : Email :=
  { subject := "Re: printer broken", content := "still broken"
    from_email := "a@x.com", from_real_name := "Alice", mail_to := "inbox@x.com"
    in_reply_to := "<COMM-1@site.local>" }

/-- The freshly built Communication for the incoming reply, before threading. -/
def w1Comm : Communication :=
  { name := "COMM-2", subject := "Re: printer broken", content := "still broken"
    sent_or_received := "Received", sender := "a@x.com"
    reference_doctype := "", reference_name := "", is_first := false
    unread_notification_sent := false, creation := 10 }

/-- Account configured like `w1Acct` but with auto-reply enabled and an empty
auto-reply template text. -/
def c7Acct : Account :=
  { w1Acct with enable_auto_reply := true, auto_reply_message := "" }

/-- Account configured like `w1Acct` but with a non-empty auto-reply text. -/
def c7AcctFull : Account :=
  { w1Acct with enable_auto_reply := true, auto_reply_message := "We got your mail." }

/-- Capabilities of a doctype enforcing uniqueness of its email field. -/
def dupMeta : DocMeta :=
  { has_subject_field := true, has_sender_field := true
    has_email_id_field := true, unique_email_id := true }

/-- Capabilities of a doctype with a unique constraint but no
email-identifying field the fallback could fetch by. -/
def dupMetaNoField : DocMeta := { dupMeta with has_email_id_field := false }

/-- An existing parent case already holding the sender's address in its
email-identifying field. -/
def dupCase : ParentDoc :=
  { doctype := "Issue", name := "ISS-0001", subject := "help"
    sender := "a@x.com", email_id := "a@x.com", status := "Open" }

/-- The Conversation Entry that created `ISS-0001` (it carries `is_first`). -/
def dupFirst : Communication :=
  { name := "COMM-10", subject := "help", content := "please help"
    sent_or_received := "Received", sender := "a@x.com"
    reference_doctype := "Issue", reference_name := "ISS-0001", is_first := true
    unread_notification_sent := false, creation := 0 }

/-- Store holding the first entry and its case. -/
def dupSt : Store := { comms := [dupFirst], parents := [dupCase] }

/-- A second, fresh mail from the same sender with no `In-Reply-To` header. -/
def dupEmail : Email :=
  { subject := "more details", content := "more", from_email := "a@x.com"
    from_real_name := "Alice", mail_to := "inbox@x.com", in_reply_to := "" }

/-- The freshly built Communication for the second mail, before threading. -/
def dupComm : Communication :=
  { name := "COMM-11", subject := "more details", content := "more"
    sent_or_received := "Received", sender := "a@x.com"
    reference_doctype := "", reference_name := "", is_first := false
    unread_notification_sent := false, creation := 20 }

/-- A standalone Conversation Entry with no parent case reference. -/
def soloComm : Communication :=
  { name := "COMM-9", subject := "ping", content := "ping"
    sent_or_received := "Sent", sender := "inbox@x.com"
    reference_doctype := "", reference_name := "", is_first := false
    unread_notification_sent := false, creation := 0 }

/-- Store holding only the standalone entry. -/
def c6St : Store := { comms := [soloComm], parents := [] }

/-- A reply threading to the standalone entry `COMM-9`. -/
def c6Email : Email :=
  { subject := "Re: ping", content := "pong", from_email := "b@y.com"
    from_real_name := "Bob", mail_to := "inbox@x.com"
    in_reply_to := " <COMM-9@site.local> " }

/-- Account with incoming disabled. -/
def c5Acct : Account := { w1Acct with enable_incoming := false }

/-- Account swept by the notifier: incoming and unreplied notification on,
`append_to = "Issue"`, window left unset (defaults to 30 minutes). -/
def c3Acct : Account :=
  { w1Acct with
    notify_if_unreplied := true
    send_notification_to := "ops@x.com" }

/-- A received entry created 600 seconds (10 minutes) before the sweep at
`now = 100000`, linked to an `Issue`, not yet notified. -/
def c3Comm : Communication :=
  { name := "COMM-20", subject := "new issue", content := "text"
    sent_or_received := "Received", sender := "a@x.com"
    reference_doctype := "Issue", reference_name := "ISS-7", is_first := true
    unread_notification_sent := false, creation := 99400 }

/-- The per-message step used by the `receive` witnesses: over a `List Nat`
journal, message `3` fails to process, every other message appends itself. -/
def c4p (s : List Nat) (n : Nat) : Except String (List Nat) :=
  if n = 3 then .error "message 3 failed to decode" else .ok (s ++ [n])

/-- Account with a comma-separated notification recipient list. -/
def c10Acct : Account := { w1Acct with send_notification_to := "a@x.com, b@y.com" }

/-- Account "A", currently the default incoming account. -/
def c9A : Account := { w1Acct with name := "A", default_incoming := true }

/-- Account "B", holding no default flag. -/
def c9B : Account := { w1Acct with name := "B" }

/-- A new account "N" being saved with `default_incoming` set. -/
def c9New : Account := { w1Acct with name := "N", default_incoming := true }

/-- The account table after saving `c9New` into `[c9A, c9B]`: "A" has lost its
default-incoming flag and "N" has been appended. -/
def c9Res : List Account := [{ c9A with default_incoming := false }, c9B, c9New]

/-! ## Claim theorems -/

/-- C1: when the trimmed `In-Reply-To` value contains `"@"` and its portion
before `"@"` names an existing Conversation Entry `e1` that carries a parent
case reference, `set_thread` links the new entry to that same parent case
(same reference type and id as `e1`'s reference) and creates no new parent
case (the store is returned unchanged). -/
theorem set_thread_reply_links_to_parent_case
    (st : Store) (acct : Account) (meta : DocMeta) (fresh : String)
    (comm : Communication) (email : Email) (e1 : Communication)
    (hne : pyStrip email.in_reply_to ≠ "")
    (hat : pyContains (pyStrip email.in_reply_to) '@' = true)
    (hfind : st.getComm (beforeAt (pyStrip email.in_reply_to)) = some e1)
    (href : e1.reference_name ≠ "")
    (hex : st.docExists e1.reference_doctype e1.reference_name = true) :
    set_thread st acct meta fresh comm email =
      .ok ⟨{ comm with
             reference_doctype := e1.reference_doctype
             reference_name := e1.reference_name }, st⟩ := by
  unfold set_thread resolveExisting
  simp [hne, hat, hfind, href, hex]

/-- Witness for C1 at a concrete store: the reply to `COMM-1@site.local` lands
on `COMM-1`'s parent case `ISS-7` and the store is unchanged. -/
theorem set_thread_reply_links_to_parent_case_witness :
    set_thread w1St w1Acct w1Meta "ISS-8" w1Comm w1Email =
      .ok ⟨{ w1Comm with reference_doctype := "Issue", reference_name := "ISS-7" }, w1St⟩ := by
  have h := set_thread_reply_links_to_parent_case w1St w1Acct w1Meta "ISS-8" w1Comm w1Email w1E1
    (by decide) (by decide) (by decide) (by decide) (by decide)
  exact h

/-- C5 (code bug, evaluated at the failing input): calling `receive` on an
account with incoming disabled is not a no-op — the trailing `if exceptions:`
sits outside the `if self.enable_incoming:` block and reads the never-assigned
local `exceptions`, so the call raises instead of returning. -/
theorem receive_disabled_raises_unbound_local :
    receive c5Acct c4p ([] : List Nat) [1, 2] = .error (.unboundLocal "exceptions") := rfl

/-- C3 (code bug, evaluated at the failing input): the filters dict of
`notify_unreplied` writes the key `"creation"` twice, so only the last entry
(`> now - 3*T`) survives dict evaluation and the `< now - T` bound is lost;
with the default window `T = 30` minutes, an entry created only 600 seconds
before the sweep — strictly inside the last `T` minutes, which the claim says
is never selected — is selected. -/
theorem notify_unreplied_selects_too_recent_entry :
    notifyFilters c3Acct 100000 =
      [("sent_or_received", .eqStr "Received"),
       ("reference_doctype", .eqStr "Issue"),
       ("unread_notification_sent", .eqBool false),
       ("creation", .gtTime 94600)] ∧
    notifyCandidates c3Acct 100000 [c3Comm] = [c3Comm] ∧
    (100000 : Int) - c3Comm.creation = 600 := by
  exact ⟨rfl, rfl, rfl⟩

/-- C7 counterexample: with auto-reply enabled, a rendered default template
available, but an absent configured template text, `send_auto_reply` sends
nothing at all — the claim's "a reply is still sent in that case" fails. -/
theorem send_auto_reply_absent_text_sends_nothing :
    send_auto_reply c7Acct w1Comm w1Email "inbox@x.com" "rendered default body" = none := rfl

/-- C7 (amended): a reply is sent only when the configured template text is
non-empty; it then goes to the original sender with subject `"Re: "` plus the
original subject and body equal to the configured text (the default-template
fallback inside the body expression is unreachable, because the send is
guarded by the same non-emptiness test). -/
theorem send_auto_reply_sends_configured_text
    (acct : Account) (comm : Communication) (email : Email)
    (incoming_email_account default_template : String)
    (h : acct.auto_reply_message ≠ "") :
    send_auto_reply acct comm email incoming_email_account default_template =
      some { recipients := [email.from_email]
             sender := acct.email_id
             reply_to := incoming_email_account
             subject := "Re: " ++ comm.subject
             content := acct.auto_reply_message
             reference_doctype := comm.reference_doctype
             reference_name := comm.reference_name
             message_id := comm.name
             unsubscribe_message := "Leave this conversation"
             bulk := true } := by
  unfold send_auto_reply
  simp [h]

/-- Witness for C7's amended theorem: a configured text is sent as the body
even though a different rendered default template is available. -/
theorem send_auto_reply_sends_configured_text_witness :
    send_auto_reply c7AcctFull w1Comm w1Email "inbox@x.com" "rendered default body" =
      some { recipients := ["a@x.com"]
             sender := "inbox@x.com"
             reply_to := "inbox@x.com"
             subject := "Re: Re: printer broken"
             content := "We got your mail."
             reference_doctype := ""
             reference_name := ""
             message_id := "COMM-2"
             unsubscribe_message := "Leave this conversation"
             bulk := true } := by
  have h := send_auto_reply_sends_configured_text c7AcctFull w1Comm w1Email
    "inbox@x.com" "rendered default body" (by decide)
  exact h

/-- C10: `get_unreplied_notification_emails` overwrites the account's
`send_notification_to` field — every comma replaced by a newline — before
splitting and trimming, so reading the recipient list mutates the account
state; on a comma-separated list the returned account differs from the input
account. -/
theorem get_unreplied_notification_emails_mutates_account (acct : Account) :
    (get_unreplied_notification_emails acct).1 =
      { acct with send_notification_to := pyReplaceChar acct.send_notification_to ',' '\n' } ∧
    (get_unreplied_notification_emails acct).2 =
      (pySplitChar (pyReplaceChar acct.send_notification_to ',' '\n') '\n').map
        (fun e => pyStripWs e) ∧
    (get_unreplied_notification_emails c10Acct).1.send_notification_to = "a@x.com\n b@y.com" ∧
    (get_unreplied_notification_emails c10Acct).1 ≠ c10Acct ∧
    (get_unreplied_notification_emails c10Acct).2 = ["a@x.com", "b@y.com"] := by
  refine ⟨rfl, rfl, rfl, by decide, rfl⟩

/-- C2 counterexample: a second mail from the same sender, with no thread
reference, hits the duplicate-key fallback — no new parent case is created
(the store is returned unchanged), yet the new entry still gets
`is_first = true`, while the existing entry `dupFirst` of the same parent
case `ISS-0001` already has `is_first = true`.  This falsifies both the
"iff a new parent case was created" reading and the at-most-one-per-case
consequence. -/
theorem set_thread_is_first_duplicate_fallback_cex :
    set_thread dupSt w1Acct dupMeta "ISS-0002" dupComm dupEmail =
      .ok ⟨{ dupComm with
             is_first := true
             reference_doctype := "Issue"
             reference_name := "ISS-0001" }, dupSt⟩ ∧
    dupComm.is_first = false ∧
    dupSt.comms = [dupFirst] ∧ dupFirst.is_first = true ∧
    dupFirst.reference_doctype = "Issue" ∧ dupFirst.reference_name = "ISS-0001" ∧
    dupSt.parents = [dupCase] :=
  ⟨rfl, rfl, rfl, rfl, rfl, rfl, rfl⟩

/-- C2 (amended): after `set_thread` on an entry whose flag starts false, the
entry's `is_first` flag is true iff the creation branch was entered (no
existing thread was resolved and `append_to` is configured) — including the
duplicate-key fallback, where no new parent case is created; hence a parent
case can end up with more than one `is_first` entry. -/
theorem set_thread_is_first_iff_create_branch
    (st : Store) (acct : Account) (meta : DocMeta) (fresh : String)
    (comm : Communication) (email : Email) (out : ThreadOut)
    (hcomm : comm.is_first = false)
    (hout : set_thread st acct meta fresh comm email = .ok out) :
    out.comm.is_first = true ↔
      (resolveExisting st email = .ok none ∧ acct.append_to ≠ "") := by
  unfold set_thread at hout
  cases hres : resolveExisting st email with
  | error e => rw [hres] at hout; simp at hout
  | ok po =>
    rw [hres] at hout
    cases po with
    | some pr =>
      obtain ⟨dt, n⟩ := pr
      simp only [Except.ok.injEq] at hout
      subst hout
      simp [hcomm, hres]
    | none =>
      by_cases happ : acct.append_to = ""
      · simp [happ] at hout
        subst hout
        simp [hcomm, hres, happ]
      · by_cases hconf : insertConflicts st acct meta email = true
        · by_cases hf : meta.has_email_id_field = true
          · cases hp : st.getParentByEmail acct.append_to email.from_email with
            | none => simp [happ, hconf, hf, hp] at hout
            | some p =>
              simp [happ, hconf, hf, hp] at hout
              subst hout
              simp [hres, happ]
          · simp [happ, hconf, hf] at hout
        · simp [happ, hconf] at hout
          subst hout
          simp [hres, happ]

/-- Witness for C2's amended theorem at the duplicate-fallback input: the
creation branch was entered (nothing resolved, `append_to` set), so the flag
is true even though the store kept the same single parent case. -/
theorem set_thread_is_first_iff_create_branch_witness :
    ({ comm := { dupComm with
                 is_first := true
                 reference_doctype := "Issue"
                 reference_name := "ISS-0001" }
       store := dupSt } : ThreadOut).comm.is_first = true ↔
      (resolveExisting dupSt dupEmail = .ok none ∧ w1Acct.append_to ≠ "") :=
  set_thread_is_first_iff_create_branch dupSt w1Acct dupMeta "ISS-0002" dupComm dupEmail
    _ rfl rfl

/-- C6 counterexample: a reply threading to the standalone entry `COMM-9`,
which has no parent case reference, is linked with reference type
`"Communication"` — the Conversation Entry type itself — contradicting
"the reference it receives is always a parent case, never another
Conversation Entry". -/
theorem set_thread_links_directly_to_entry_cex :
    set_thread c6St w1Acct w1Meta "ISS-9" dupComm c6Email =
      .ok ⟨{ dupComm with
             reference_doctype := "Communication"
             reference_name := "COMM-9" }, c6St⟩ := rfl

/-- C6 (amended): when the thread reference resolves to an existing
Conversation Entry that carries a parent case reference, the new entry is
linked to that case; but when the resolved entry has no parent case
reference, the new entry is linked directly to the Conversation Entry itself
(reference type `"Communication"`, reference id the entry's name), with no
new parent case created. -/
theorem set_thread_entry_without_parent_ref_links_to_entry
    (st : Store) (acct : Account) (meta : DocMeta) (fresh : String)
    (comm : Communication) (email : Email) (e1 : Communication)
    (hne : pyStrip email.in_reply_to ≠ "")
    (hat : pyContains (pyStrip email.in_reply_to) '@' = true)
    (hfind : st.getComm (beforeAt (pyStrip email.in_reply_to)) = some e1)
    (href : e1.reference_name = "") :
    set_thread st acct meta fresh comm email =
      .ok ⟨{ comm with
             reference_doctype := "Communication"
             reference_name := e1.name }, st⟩ := by
  unfold set_thread resolveExisting
  simp [hne, hat, hfind, href]

/-- Witness for C6's amended theorem: the reply to `COMM-9` gets
`reference_doctype = "Communication"`. -/
theorem set_thread_entry_without_parent_ref_links_to_entry_witness :
    set_thread c6St w1Acct w1Meta "ISS-9" w1Comm c6Email =
      .ok ⟨{ w1Comm with
             reference_doctype := "Communication"
             reference_name := "COMM-9" }, c6St⟩ := by
  have h := set_thread_entry_without_parent_ref_links_to_entry c6St w1Acct w1Meta "ISS-9"
    w1Comm c6Email soloComm (by decide) (by decide) (by decide) (by decide)
  exact h

/-- C4: with incoming enabled, a batch of five messages whose third message
fails is processed with per-message isolation — the failing message's effects
are rolled back (message four is processed from the state committed after
message two), processing continues, the four successes are committed (the
final committed state is the one after message five), and the call raises one
aggregate error carrying exactly the recorded trace; and whenever no message
fails, `receive` raises nothing and returns the committed state. -/
theorem receive_batch_failure_isolation
    {σ α : Type} (acct : Account) (p : σ → α → Except String σ)
    (st s1 s2 s4 s5 : σ) (m1 m2 m3 m4 m5 : α) (e3 : String)
    (hinc : acct.enable_incoming = true)
    (h1 : p st m1 = .ok s1) (h2 : p s1 m2 = .ok s2) (h3 : p s2 m3 = .error e3)
    (h4 : p s2 m4 = .ok s4) (h5 : p s4 m5 = .ok s5) :
    receive acct p st [m1, m2, m3, m4, m5] = .error (.aggregate [e3]) ∧
    (receiveLoop p st [m1, m2, m3, m4, m5]).1 = s5 ∧
    ∀ (t : σ) (ms : List α), (receiveLoop p t ms).2 = [] →
      receive acct p t ms = .ok (receiveLoop p t ms).1 := by
  refine ⟨?_, ?_, ?_⟩
  · simp [receive, receiveLoop, hinc, h1, h2, h3, h4, h5]
  · simp [receiveLoop, h1, h2, h3, h4, h5]
  · intro t ms hms
    simp [receive, hinc, hms]

/-- Witness for C4: messages `1..5` against a journal state, where message `3`
fails: the committed journal holds exactly `1, 2, 4, 5` and the aggregate
error carries message 3's trace; the no-failure conjunct applied to the batch
`[1, 2]` returns the committed journal `[1, 2]` with no error. -/
theorem receive_batch_failure_isolation_witness :
    receive w1Acct c4p ([] : List Nat) [1, 2, 3, 4, 5] =
      .error (.aggregate ["message 3 failed to decode"]) ∧
    (receiveLoop c4p ([] : List Nat) [1, 2, 3, 4, 5]).1 = [1, 2, 4, 5] ∧
    receive w1Acct c4p ([] : List Nat) [1, 2] = .ok [1, 2] := by
  have h := receive_batch_failure_isolation w1Acct c4p
    ([] : List Nat) [1] [1, 2] [1, 2, 4] [1, 2, 4, 5] 1 2 3 4 5
    "message 3 failed to decode" rfl rfl rfl rfl rfl rfl
  exact ⟨h.1, h.2.1, h.2.2 [] [1, 2] rfl⟩

/-- C8: when nothing was resolved from the thread reference, `append_to` is
configured, and inserting the new parent case hits a duplicate-key conflict:
if the target type has an email-identifying field, `set_thread` resolves to
the record fetched by that field's value (the sender's email) — the entry is
linked to that existing record's exact identifier and the store is unchanged
(no duplicate record); if the target type has no such field, the conflict
propagates as a fatal error for the message. -/
theorem set_thread_duplicate_conflict_fallback
    (st : Store) (acct : Account) (meta : DocMeta) (fresh : String)
    (comm : Communication) (email : Email)
    (hres : resolveExisting st email = .ok none)
    (happ : acct.append_to ≠ "")
    (hconf : insertConflicts st acct meta email = true) :
    (∀ p : ParentDoc, meta.has_email_id_field = true →
        st.getParentByEmail acct.append_to email.from_email = some p →
        set_thread st acct meta fresh comm email =
          .ok ⟨{ comm with
                 is_first := true
                 reference_doctype := p.doctype
                 reference_name := p.name }, st⟩) ∧
    (meta.has_email_id_field = false →
        set_thread st acct meta fresh comm email = .error .duplicateEntry) := by
  constructor
  · intro p hf hp
    unfold set_thread
    rw [hres]
    simp [happ, hconf, hf, hp]
  · intro hf
    unfold set_thread
    rw [hres]
    simp [happ, hconf, hf]

/-- Witness for C8: the duplicate-key fallback fetches the original case
`ISS-0001` (the record holding the sender's address), returning its exact
identifier with the store unchanged; with the email-identifying field absent,
the same input propagates the duplicate-entry error. -/
theorem set_thread_duplicate_conflict_fallback_witness :
    set_thread dupSt w1Acct dupMeta "ISS-0002" dupComm dupEmail =
      .ok ⟨{ dupComm with
             is_first := true
             reference_doctype := "Issue"
             reference_name := "ISS-0001" }, dupSt⟩ ∧
    set_thread dupSt w1Acct dupMetaNoField "ISS-0002" dupComm dupEmail =
      .error .duplicateEntry := by
  have h1 := set_thread_duplicate_conflict_fallback dupSt w1Acct dupMeta "ISS-0002"
    dupComm dupEmail rfl (by decide) rfl
  have h2 := set_thread_duplicate_conflict_fallback dupSt w1Acct dupMetaNoField "ISS-0002"
    dupComm dupEmail rfl (by decide) rfl
  exact ⟨h1.1 dupCase rfl rfl, h2.2 rfl⟩

/-! ## Helper lemmas for the default-flag invariant -/

/-- Membership in `flaggedNames` unpacked to a witnessing account. -/
theorem mem_flaggedNames (fn : DefaultFlag) (tbl : List Account) (m : String) :
    m ∈ flaggedNames fn tbl ↔ ∃ b ∈ tbl, b.getDefault fn = true ∧ b.name = m := by
  unfold flaggedNames
  simp [List.mem_map, List.mem_filter, and_assoc]

/-- Setting a default flag does not change the account's name. -/
theorem name_setDefault (a : Account) (fn : DefaultFlag) (v : Bool) :
    (a.setDefault fn v).name = a.name := by
  cases fn <;> rfl

/-- A flag still set after clearing `fn` was set before. -/
theorem getDefault_setDefault_false_le (a : Account) (fn g : DefaultFlag) :
    (a.setDefault fn false).getDefault g = true → a.getDefault g = true := by
  cases fn <;> cases g <;> simp [Account.setDefault, Account.getDefault]

/-- Clearing `fn` really clears it. -/
theorem getDefault_setDefault_false_self (a : Account) (fn : DefaultFlag) :
    (a.setDefault fn false).getDefault fn = false := by
  cases fn <;> rfl

/-- Writing one account record changes `flaggedNames` only at that record's
name: a name is flagged afterwards iff it is the written account's name with
the flag set, or was flagged before and is not the written account's name. -/
theorem mem_flaggedNames_writeDoc (fn : DefaultFlag) (tbl : List Account) (a : Account)
    (m : String) :
    m ∈ flaggedNames fn (writeDoc tbl a) ↔
      ((m = a.name ∧ a.getDefault fn = true) ∨
       (m ∈ flaggedNames fn tbl ∧ m ≠ a.name)) := by
  unfold writeDoc
  by_cases hany : tbl.any (fun b => b.name == a.name) = true
  · rw [if_pos hany]
    constructor
    · intro hm
      rcases (mem_flaggedNames fn _ m).mp hm with ⟨c, hc, hflag, hname⟩
      rcases List.mem_map.mp hc with ⟨d, hd, hdc⟩
      by_cases hdn : d.name = a.name
      · left
        rw [if_pos hdn] at hdc
        subst hdc
        exact ⟨hname.symm, hflag⟩
      · right
        rw [if_neg hdn] at hdc
        subst hdc
        refine ⟨(mem_flaggedNames fn tbl m).mpr ⟨d, hd, hflag, hname⟩, ?_⟩
        rw [← hname]
        exact hdn
    · intro h
      rcases h with ⟨rfl, hflag⟩ | ⟨hmem, hne⟩
      · rcases List.any_eq_true.mp hany with ⟨c, hc, hcn⟩
        refine (mem_flaggedNames fn _ _).mpr
          ⟨a, List.mem_map.mpr ⟨c, hc, ?_⟩, hflag, rfl⟩
        rw [if_pos (by exact eq_of_beq hcn)]
      · rcases (mem_flaggedNames fn tbl m).mp hmem with ⟨c, hc, hflag, hname⟩
        refine (mem_flaggedNames fn _ m).mpr
          ⟨c, List.mem_map.mpr ⟨c, hc, ?_⟩, hflag, hname⟩
        rw [if_neg]
        rw [hname]
        exact hne
  · rw [if_neg hany]
    have hall : ∀ b ∈ tbl, b.name ≠ a.name := by
      intro b hb heq
      exact hany (List.any_eq_true.mpr ⟨b, hb, by rw [heq]; exact beq_self_eq_true a.name⟩)
    constructor
    · intro hm
      rcases (mem_flaggedNames fn _ m).mp hm with ⟨c, hc, hflag, hname⟩
      rcases List.mem_append.mp hc with hcl | hcr
      · right
        refine ⟨(mem_flaggedNames fn tbl m).mpr ⟨c, hcl, hflag, hname⟩, ?_⟩
        rw [← hname]
        exact hall c hcl
      · left
        have hca : c = a := List.mem_singleton.mp hcr
        subst hca
        exact ⟨hname.symm, hflag⟩
    · intro h
      rcases h with ⟨rfl, hflag⟩ | ⟨hmem, hne⟩
      · exact (mem_flaggedNames fn _ _).mpr
          ⟨a, List.mem_append.mpr (Or.inr (List.mem_singleton.mpr rfl)), hflag, rfl⟩
      · rcases (mem_flaggedNames fn tbl m).mp hmem with ⟨c, hc, hflag, hname⟩
        exact (mem_flaggedNames fn _ m).mpr
          ⟨c, List.mem_append.mpr (Or.inl hc), hflag, hname⟩

/-- Monotonicity of the clearing loop: whatever flag `g`, the loop (whose
inner saves only ever write records with a flag cleared) never makes a new
name flagged. -/
theorem clearLoop_flag_subset
    (sv : List Account → Account → Option (List Account))
    (hsv : ∀ t b t2, sv t b = some t2 → ∀ g m, m ∈ flaggedNames g t2 →
      (m = b.name ∧ b.getDefault g = true) ∨ (m ∈ flaggedNames g t ∧ m ≠ b.name))
    (selfName : String) (fn : DefaultFlag) :
    ∀ (names : List String) (tbl tbl2 : List Account),
      clearLoop sv selfName fn names tbl = some tbl2 →
      ∀ g m, m ∈ flaggedNames g tbl2 → m ∈ flaggedNames g tbl := by
  intro names
  induction names with
  | nil =>
    intro tbl tbl2 h g m hm
    unfold clearLoop at h
    injection h with h2
    rw [← h2] at hm
    exact hm
  | cons n rest ih =>
    intro tbl tbl2 h g m hm
    unfold clearLoop at h
    by_cases hn : n = selfName
    · rw [if_pos hn] at h
      exact ih tbl tbl2 h g m hm
    · rw [if_neg hn] at h
      cases hfind : tbl.find? (fun b => b.name == n) with
      | none => rw [hfind] at h; cases h
      | some b =>
        rw [hfind] at h
        dsimp only at h
        cases hsv2 : sv tbl (b.setDefault fn false) with
        | none => rw [hsv2] at h; cases h
        | some t2 =>
          rw [hsv2] at h
          have hm2 : m ∈ flaggedNames g t2 := ih t2 tbl2 h g m hm
          rcases hsv tbl (b.setDefault fn false) t2 hsv2 g m hm2 with
            ⟨hname, hflag⟩ | ⟨hmem, _⟩
          · have hb : b.getDefault g = true := getDefault_setDefault_false_le b fn g hflag
            have hbmem : b ∈ tbl := List.mem_of_find?_eq_some hfind
            rw [name_setDefault] at hname
            exact (mem_flaggedNames g tbl m).mpr ⟨b, hbmem, hb, hname.symm⟩
          · exact hmem

/-- Completeness of the clearing loop for the flag it clears: afterwards, a
name still flagged with `fn` and occurring in the processed snapshot must be
the saved account's own name. -/
theorem clearLoop_clears
    (sv : List Account → Account → Option (List Account))
    (hsv : ∀ t b t2, sv t b = some t2 → ∀ g m, m ∈ flaggedNames g t2 →
      (m = b.name ∧ b.getDefault g = true) ∨ (m ∈ flaggedNames g t ∧ m ≠ b.name))
    (selfName : String) (fn : DefaultFlag) :
    ∀ (names : List String) (tbl tbl2 : List Account),
      clearLoop sv selfName fn names tbl = some tbl2 →
      ∀ m, m ∈ flaggedNames fn tbl2 → m ∈ names → m = selfName := by
  intro names
  induction names with
  | nil =>
    intro tbl tbl2 h m hm hmem
    cases hmem
  | cons n rest ih =>
    intro tbl tbl2 h m hm hmem
    unfold clearLoop at h
    by_cases hn : n = selfName
    · rw [if_pos hn] at h
      rcases List.mem_cons.mp hmem with rfl | hrest
      · exact hn
      · exact ih tbl tbl2 h m hm hrest
    · rw [if_neg hn] at h
      cases hfind : tbl.find? (fun b => b.name == n) with
      | none => rw [hfind] at h; cases h
      | some b =>
        rw [hfind] at h
        dsimp only at h
        cases hsv2 : sv tbl (b.setDefault fn false) with
        | none => rw [hsv2] at h; cases h
        | some t2 =>
          rw [hsv2] at h
          have hbn : b.name = n := by
            have := List.find?_some hfind
            exact eq_of_beq this
          have hmne : m ≠ n := by
            have hm2 : m ∈ flaggedNames fn t2 :=
              clearLoop_flag_subset sv hsv selfName fn rest t2 tbl2 h fn m hm
            rcases hsv tbl (b.setDefault fn false) t2 hsv2 fn m hm2 with
              ⟨hname, hflag⟩ | ⟨_, hne2⟩
            · rw [getDefault_setDefault_false_self] at hflag
              cases hflag
            · rw [name_setDefault, hbn] at hne2
              exact hne2
          rcases List.mem_cons.mp hmem with rfl | hrest
          · exact absurd rfl hmne
          · exact ih t2 tbl2 h m hm hrest

/-- Monotonicity of a completed save: a flagged name afterwards is either the
saved account itself (with that flag set in the saved record) or was flagged
before and is a different account. -/
theorem saveFuel_flag_subset :
    ∀ (fuel : Nat) (tbl : List Account) (a : Account) (tbl2 : List Account),
      saveFuel fuel tbl a = some tbl2 →
      ∀ g m, m ∈ flaggedNames g tbl2 →
        (m = a.name ∧ a.getDefault g = true) ∨ (m ∈ flaggedNames g tbl ∧ m ≠ a.name) := by
  intro fuel
  induction fuel with
  | zero => intro tbl a tbl2 h; cases h
  | succ f ih =>
    intro tbl a tbl2 h g m hm
    unfold saveFuel at h
    dsimp only at h
    have step2 : ∀ t1 : List Account,
        (if a.getDefault .outgoing then
          clearLoop (saveFuel f) a.name .outgoing (flaggedNames .outgoing t1) t1
        else some t1) = some tbl2 →
        m ∈ flaggedNames g tbl2 → m ∈ flaggedNames g t1 := by
      intro t1 h2 hm2
      by_cases houtg : a.getDefault .outgoing = true
      · rw [if_pos houtg] at h2
        exact clearLoop_flag_subset (saveFuel f) ih a.name .outgoing _ t1 tbl2 h2 g m hm2
      · rw [if_neg houtg] at h2
        injection h2 with h3
        rw [← h3] at hm2
        exact hm2
    have main : m ∈ flaggedNames g (writeDoc tbl a) := by
      by_cases hinc : a.getDefault .incoming = true
      · rw [if_pos hinc] at h
        cases hr1 : clearLoop (saveFuel f) a.name .incoming
            (flaggedNames .incoming (writeDoc tbl a)) (writeDoc tbl a) with
        | none => rw [hr1] at h; cases h
        | some t1 =>
          rw [hr1] at h
          dsimp only at h
          have hm1 : m ∈ flaggedNames g t1 := step2 t1 h hm
          exact clearLoop_flag_subset (saveFuel f) ih a.name .incoming _ _ t1 hr1 g m hm1
      · rw [if_neg hinc] at h
        dsimp only at h
        exact step2 (writeDoc tbl a) h hm
    exact (mem_flaggedNames_writeDoc g tbl a m).mp main

/-- Completeness of a completed save: when the saved account holds a default
flag, it ends up as the only account holding it. -/
theorem saveFuel_clears_others
    (fuel : Nat) (tbl : List Account) (a : Account) (tbl2 : List Account)
    (h : saveFuel fuel tbl a = some tbl2) (fn : DefaultFlag)
    (hflag : a.getDefault fn = true) :
    ∀ m, m ∈ flaggedNames fn tbl2 → m = a.name := by
  intro m hm
  cases fuel with
  | zero => cases h
  | succ f =>
    unfold saveFuel at h
    dsimp only at h
    cases fn with
    | incoming =>
      rw [if_pos hflag] at h
      cases hr1 : clearLoop (saveFuel f) a.name .incoming
          (flaggedNames .incoming (writeDoc tbl a)) (writeDoc tbl a) with
      | none => rw [hr1] at h; cases h
      | some t1 =>
        rw [hr1] at h
        dsimp only at h
        have hm1 : m ∈ flaggedNames .incoming t1 := by
          by_cases houtg : a.getDefault .outgoing = true
          · rw [if_pos houtg] at h
            exact clearLoop_flag_subset (saveFuel f) (saveFuel_flag_subset f) a.name
              .outgoing _ t1 tbl2 h .incoming m hm
          · rw [if_neg houtg] at h
            injection h with h3
            rw [← h3] at hm
            exact hm
        have hsnap : m ∈ flaggedNames .incoming (writeDoc tbl a) :=
          clearLoop_flag_subset (saveFuel f) (saveFuel_flag_subset f) a.name .incoming
            _ _ t1 hr1 .incoming m hm1
        exact clearLoop_clears (saveFuel f) (saveFuel_flag_subset f) a.name .incoming
          _ _ t1 hr1 m hm1 hsnap
    | outgoing =>
      have afterPhase1 : ∃ t1 : List Account,
          (if a.getDefault .outgoing then
            clearLoop (saveFuel f) a.name .outgoing (flaggedNames .outgoing t1) t1
          else some t1) = some tbl2 := by
        by_cases hinc : a.getDefault .incoming = true
        · rw [if_pos hinc] at h
          cases hr1 : clearLoop (saveFuel f) a.name .incoming
              (flaggedNames .incoming (writeDoc tbl a)) (writeDoc tbl a) with
          | none => rw [hr1] at h; cases h
          | some t1 =>
            rw [hr1] at h
            dsimp only at h
            exact ⟨t1, h⟩
        · rw [if_neg hinc] at h
          dsimp only at h
          exact ⟨writeDoc tbl a, h⟩
      rcases afterPhase1 with ⟨t1, h2⟩
      rw [if_pos hflag] at h2
      have hsnap : m ∈ flaggedNames .outgoing t1 :=
        clearLoop_flag_subset (saveFuel f) (saveFuel_flag_subset f) a.name .outgoing
          _ t1 tbl2 h2 .outgoing m hm
      exact clearLoop_clears (saveFuel f) (saveFuel_flag_subset f) a.name .outgoing
        _ t1 tbl2 h2 m hm hsnap

/-- C9: for sequential saves, a completed save of an account preserves the
at-most-one invariant for each default flag, and when the saved account holds
a default flag the save clears that flag on every other account, so at most
one account holds it afterwards. -/
theorem save_enforces_single_default
    (fuel : Nat) (tbl : List Account) (a : Account) (tbl2 : List Account)
    (hsave : saveFuel fuel tbl a = some tbl2) (fn : DefaultFlag) :
    (atMostOneDefault fn tbl → atMostOneDefault fn tbl2) ∧
    (a.getDefault fn = true → ∀ b ∈ tbl2, b.name ≠ a.name → b.getDefault fn = false) := by
  constructor
  · intro hpre
    unfold atMostOneDefault at hpre ⊢
    by_cases hflag : a.getDefault fn = true
    · intro m hm m2 hm2
      rw [saveFuel_clears_others fuel tbl a tbl2 hsave fn hflag m hm,
          saveFuel_clears_others fuel tbl a tbl2 hsave fn hflag m2 hm2]
    · intro m hm m2 hm2
      rcases saveFuel_flag_subset fuel tbl a tbl2 hsave fn m hm with ⟨_, hT⟩ | ⟨hmem, _⟩
      · exact absurd hT hflag
      rcases saveFuel_flag_subset fuel tbl a tbl2 hsave fn m2 hm2 with ⟨_, hT⟩ | ⟨hmem2, _⟩
      · exact absurd hT hflag
      exact hpre m hmem m2 hmem2
  · intro hflag b hb hne
    cases hbool : b.getDefault fn with
    | false => rfl
    | true =>
      have hmem : b.name ∈ flaggedNames fn tbl2 :=
        (mem_flaggedNames fn tbl2 b.name).mpr ⟨b, hb, hbool, rfl⟩
      exact absurd (saveFuel_clears_others fuel tbl a tbl2 hsave fn hflag b.name hmem) hne

/-- Witness for C9: saving the new account `N` (claiming default-incoming)
into a table where `A` holds default-incoming completes with fuel 6, clears
`A`'s flag, and keeps at most one holder of the flag. -/
theorem save_enforces_single_default_witness :
    saveFuel 6 [c9A, c9B] c9New = some c9Res ∧
    atMostOneDefault DefaultFlag.incoming [c9A, c9B] ∧
    atMostOneDefault DefaultFlag.incoming c9Res ∧
    (∀ b ∈ c9Res, b.name ≠ c9New.name → b.getDefault DefaultFlag.incoming = false) := by
  have h := save_enforces_single_default 6 [c9A, c9B] c9New c9Res rfl DefaultFlag.incoming
  exact ⟨rfl, by decide, h.1 (by decide), h.2 rfl⟩
